import Mathlib

/-!
# AttendEase — formal model of the attendance data model and routes

A shallow embedding, in Lean 4, of the JavaScript code of the AttendEase
repository (React frontend + Express backend + puppeteer scraping services),
restricted to the pure data-model and control-flow fragments that the
specification talks about:

* the percentage → status classification used by the frontend utilities
  (`getAttendanceStatus`), the `UPESScrapingService` row extractor and the
  `DynamicAttendanceScrapingService` row extractor;
* the per-subject attendance record and the two summary computations
  (`UPESScrapingService.fetchAttendanceReport` and
  `DynamicAttendanceScrapingService.calculateOverallAttendance`);
* the error-message → HTTP-status mapping of the `POST /api/attendance/fetch`
  routes, the fallback-data generator `generateFallbackData`, and the
  login route `POST /api/auth/login`;
* the browser/page handle lifecycle of `UPESScrapingService.fetchAttendanceReport`
  and its `cleanup`.

JavaScript numbers are modelled as `ℚ` (the values involved are counts and
percentages obtained by exact arithmetic on small integers; `toFixed(2)`
is modelled as round-half-up to two decimals, which agrees with JS on the
exactly-representable inputs used here).  JavaScript strings are modelled
as Lean `String` with character-list based trim/lower helpers mirroring the
ASCII behaviour of the JS string methods.
-/

namespace AttendEase

/-- The three status buckets the spec's data model speaks about. -/
inductive Bucket where
  | safe
  | warning
  | critical
deriving DecidableEq, Repr

/-- Spec-side classification: safe / warning / critical by the thresholds
75 / 65 ("safe/warning/critical by percentage thresholds 75/65"). -/
def classifyBucket (p : ℚ) : Bucket :=
  if 75 ≤ p then .safe
  else if 65 ≤ p then .warning
  else .critical

/-- From `src/src/utils/attendanceUtils` (`getAttendanceStatus`, the status
field of the returned object): `percentage >= 75 → 'Safe'`,
`percentage >= 65 → 'Warning'`, else `'Critical'`. -/
def getAttendanceStatus (percentage : ℚ) : String :=
  if 75 ≤ percentage then "Safe"
  else if 65 ≤ percentage then "Warning"
  else "Critical"

/-- From `UPESScrapingService.scrapeAttendanceData` (row extraction): the
`status` variable starts as `'Unknown'` and is then set by
`percentage >= 75 → 'Good'`, `percentage >= 65 → 'Warning'`, else
`'Critical'` (the else branch always fires, so `'Unknown'` never survives). -/
def upesRowStatus (percentage : ℚ) : String :=
  if 75 ≤ percentage then "Good"
  else if 65 ≤ percentage then "Warning"
  else "Critical"

/-- From `DynamicAttendanceScrapingService.extractRowData`:
`>= 90 → 'Perfect'`, `>= 85 → 'Excellent'`, `>= 75 → 'Good'`,
`>= 65 → 'Warning'`, else `'Critical'`. -/
def dynamicRowStatus (percentage : ℚ) : String :=
  if 90 ≤ percentage then "Perfect"
  else if 85 ≤ percentage then "Excellent"
  else if 75 ≤ percentage then "Good"
  else if 65 ≤ percentage then "Warning"
  else "Critical"

/-- Bucket a status label, following how the repo itself groups labels
(`'Safe'`, `'Good'`, `'Excellent'`, `'Perfect'` are the ≥ 75 labels;
`'Warning'` and `'Critical'` are used uniformly). -/
def statusBucket (s : String) : Option Bucket :=
  if s = "Safe" ∨ s = "Good" ∨ s = "Excellent" ∨ s = "Perfect" then some .safe
  else if s = "Warning" then some .warning
  else if s = "Critical" then some .critical
  else none

/-- Per-subject attendance record (the repo's row objects:
`{ subject, attended, total, percentage, status }`; the dynamic scraper's
extra `subjectCode`/`faculty` fields play no role in the summaries). -/
structure AttendanceRecord where
  subject : String
  attended : ℕ
  total : ℕ
  percentage : ℚ
  status : String
deriving DecidableEq, Repr

/-- Model of JS `parseFloat(x.toFixed(2))` on non-negative exact values:
round half-away-from-zero to two decimals. -/
def toFixed2 (q : ℚ) : ℚ := (⌊q * 100 + 1 / 2⌋ : ℤ) / 100

/-- The summary object built inline by `UPESScrapingService.fetchAttendanceReport`:
```
totalSubjects: attendanceData.length,
safeSubjects: attendanceData.filter(a => a.status === 'Good' || a.percentage >= 75).length,
warningSubjects: attendanceData.filter(a => a.status === 'Warning' || (a.percentage >= 65 && a.percentage < 75)).length,
criticalSubjects: attendanceData.filter(a => a.status === 'Critical' || a.percentage < 65).length,
overallPercentage: attendanceData.length > 0 ?
  parseFloat((attendanceData.reduce((sum, a) => sum + a.percentage, 0) / attendanceData.length).toFixed(2)) : 0
```
-/
structure Summary where
  totalSubjects : ℕ
  safeSubjects : ℕ
  warningSubjects : ℕ
  criticalSubjects : ℕ
  overallPercentage : ℚ
deriving DecidableEq, Repr

def upesSummary (attendanceData : List AttendanceRecord) : Summary where
  totalSubjects := attendanceData.length
  safeSubjects :=
    (attendanceData.filter fun a => a.status = "Good" ∨ 75 ≤ a.percentage).length
  warningSubjects :=
    (attendanceData.filter fun a =>
      a.status = "Warning" ∨ (65 ≤ a.percentage ∧ a.percentage < 75)).length
  criticalSubjects :=
    (attendanceData.filter fun a => a.status = "Critical" ∨ a.percentage < 65).length
  overallPercentage :=
    if 0 < attendanceData.length then
      toFixed2 ((attendanceData.map (·.percentage)).sum / attendanceData.length)
    else 0

/-- The result object of
`DynamicAttendanceScrapingService.calculateOverallAttendance`. -/
structure OverallStats where
  totalClasses : ℕ
  attendedClasses : ℕ
  overallPercentage : ℚ
  status : String
  totalSubjects : ℕ
  safeSubjects : ℕ
  warningSubjects : ℕ
  criticalSubjects : ℕ
  recommendations : List String
deriving DecidableEq, Repr

/-- `DynamicAttendanceScrapingService.calculateOverallAttendance`, translated
clause by clause from `src` (empty-list early return; sums of `total` and
`attended`; overallPercentage as attended/total ratio; 75/65 percentage
filters; status ladder and recommendation pushes). -/
def calculateOverallAttendance (attendanceData : List AttendanceRecord) : OverallStats :=
  if attendanceData.length = 0 then
    { totalClasses := 0, attendedClasses := 0, overallPercentage := 0
      status := "No Data", totalSubjects := 0, safeSubjects := 0
      warningSubjects := 0, criticalSubjects := 0
      recommendations := ["No attendance data available"] }
  else
    let totalClasses : ℕ := (attendanceData.map (·.total)).sum
    let attendedClasses : ℕ := (attendanceData.map (·.attended)).sum
    let overallPercentage : ℚ :=
      if 0 < totalClasses then toFixed2 ((attendedClasses : ℚ) / totalClasses * 100) else 0
    let safeSubjects := (attendanceData.filter fun s => 75 ≤ s.percentage).length
    let warningSubjects :=
      (attendanceData.filter fun s => 65 ≤ s.percentage ∧ s.percentage < 75).length
    let criticalSubjects := (attendanceData.filter fun s => s.percentage < 65).length
    let statusRec : String × List String :=
      if 90 ≤ overallPercentage then
        ("Excellent", ["Outstanding attendance! Keep up the great work."])
      else if 85 ≤ overallPercentage then
        ("Very Good", ["Great attendance! Continue maintaining regularity."])
      else if 75 ≤ overallPercentage then
        ("Good", ["Good attendance. Try to improve further."])
      else if 65 ≤ overallPercentage then
        ("Warning", ["Attendance is below optimal. Focus on attending more classes."])
      else
        ("Critical", ["Critical: Attendance is too low. Immediate improvement needed."])
    let recommendations := statusRec.2 ++
      (if 0 < criticalSubjects then
        [s!"{criticalSubjects} subject(s) need immediate attention."] else []) ++
      (if 0 < warningSubjects then
        [s!"{warningSubjects} subject(s) need improvement."] else [])
    { totalClasses := totalClasses, attendedClasses := attendedClasses
      overallPercentage := overallPercentage, status := statusRec.1
      totalSubjects := attendanceData.length, safeSubjects := safeSubjects
      warningSubjects := warningSubjects, criticalSubjects := criticalSubjects
      recommendations := recommendations }

/-- `pat` occurs as a prefix of `l` (character-exact, as JS `startsWith`). -/
def charsPrefix : List Char → List Char → Bool
  | [], _ => true
  | _ :: _, [] => false
  | a :: as, b :: bs => a = b && charsPrefix as bs

/-- `pat` occurs as a contiguous substring of `l`. -/
def charsSub (pat : List Char) : List Char → Bool
  | [] => charsPrefix pat []
  | b :: bs => charsPrefix pat (b :: bs) || charsSub pat bs

/-- Model of JS `String.prototype.includes` (case-sensitive substring test). -/
def strIncludes (s pat : String) : Bool := charsSub pat.toList s.toList

/-- The error-message → HTTP-status mapping in the catch branch of
`router.post('/fetch')` (`src/backend/routes/attendance.js`; the same
if/else-if chain appears verbatim in the version-3.0 route):
```
let statusCode = 500;
if (error.message.includes('Login failed') || error.message.includes('credentials')) statusCode = 401;
else if (error.message.includes('RATE_LIMITED') || error.message.includes('too many login attempts')) statusCode = 429;
else if (error.message.includes('timeout') || error.message.includes('Network')) statusCode = 504;
else if (error.message.includes('Browser') || error.message.includes('puppeteer')) statusCode = 503;
else if (error.message.includes('No attendance data found')) statusCode = 404;
```
-/
def fetchErrorStatus (msg : String) : ℕ :=
  if strIncludes msg "Login failed" || strIncludes msg "credentials" then 401
  else if strIncludes msg "RATE_LIMITED" || strIncludes msg "too many login attempts" then 429
  else if strIncludes msg "timeout" || strIncludes msg "Network" then 504
  else if strIncludes msg "Browser" || strIncludes msg "puppeteer" then 503
  else if strIncludes msg "No attendance data found" then 404
  else 500



/-- The whitespace characters stripped by the JS `trim()` calls involved here
(ASCII subset; the inputs concerned are ASCII). -/
def jsIsSpace (c : Char) : Bool := c == ' ' || c == '\t' || c == '\n' || c == '\r'

/-- JS `String.prototype.trim` (strip leading and trailing whitespace). -/
def jsTrim (s : String) : String :=
  String.mk (((s.toList.dropWhile jsIsSpace).reverse.dropWhile jsIsSpace).reverse)

/-- JS `String.prototype.toLowerCase` on ASCII strings. -/
def jsToLower (s : String) : String := String.mk (s.toList.map Char.toLower)

/-- The character class of the login validator's regex `/^[a-zA-Z0-9._@-]+$/`. -/
def validUserIdChar (c : Char) : Bool :=
  c.isAlpha || c.isDigit || c == '.' || c == '_' || c == '@' || c == '-'

/-- The `validateLoginInput` middleware chain of the auth route file
(`POST /api/auth/login`): `userId` must be non-empty, is then trimmed by the
`.trim()` sanitizer, and the trimmed value must have length 1..50 and match
`/^[a-zA-Z0-9._@-]+$/`; `password` must be non-empty with length ≥ 1 (no
trim sanitizer on the password chain). -/
def validateLoginInput (userId password : String) : Bool :=
  let t := jsTrim userId
  !(userId == "") && (1 ≤ t.length && t.length ≤ 50) &&
    (!(t == "") && t.toList.all validUserIdChar) &&
    !(password == "") && (1 ≤ password.length)

/-- Status, `success` and token-payload `userId` of a `POST /api/auth/login`
response (the payload's `email` field duplicates `userId`; `loginTime` /
`sessionId` are wall-clock values outside the model). -/
structure LoginResponse where
  status : ℕ
  success : Bool
  tokenUserId : Option String
deriving DecidableEq, Repr

/-- The `router.post('/login')` handler: failed validation → 400; then
`sanitizedUserId = userId.trim().toLowerCase()` (on the already-trimmed body
value) and `sanitizedPassword = password.trim()`; if either sanitized value
is falsy (empty) → 400 `MISSING_CREDENTIALS`; otherwise a token whose payload
`userId` is `sanitizedUserId` is issued with status 200 — the password's
value is never checked against the portal. -/
def loginRoute (userId password : String) : LoginResponse :=
  if validateLoginInput userId password = false then ⟨400, false, none⟩
  else
    let bodyUserId := jsTrim userId
    let sanitizedUserId := jsToLower (jsTrim bodyUserId)
    let sanitizedPassword := jsTrim password
    if sanitizedUserId = "" ∨ sanitizedPassword = "" then ⟨400, false, none⟩
    else ⟨200, true, some sanitizedUserId⟩

/-- `calculateClassesNeeded` from `src/src/utils/attendanceUtils`:
```
if (currentTotal === 0) return 0;
const currentPercentage = (currentAttended / currentTotal) * 100;
if (currentPercentage >= targetPercentage) return 0;
const classesNeeded = Math.ceil(
  (targetPercentage * currentTotal - currentAttended * 100) / (100 - targetPercentage));
return Math.max(0, classesNeeded);
```
-/
def calculateClassesNeeded (currentAttended currentTotal : ℕ)
    (targetPercentage : ℚ) : ℤ :=
  if currentTotal = 0 then 0
  else
    let currentPercentage : ℚ := (currentAttended : ℚ) / (currentTotal : ℚ) * 100
    if targetPercentage ≤ currentPercentage then 0
    else
      max 0 ⌈(targetPercentage * (currentTotal : ℚ) - (currentAttended : ℚ) * 100) /
        (100 - targetPercentage)⌉

/-- Student profile object (`UPESScrapingService.getStudentProfile` result /
`generateFallbackData`'s `student`). -/
structure StudentProfile where
  name : String
  studentId : String
  course : String
  semester : String
  status : String
  profilePhoto : Option String
deriving DecidableEq, Repr

/-- The report built by `UPESScrapingService.fetchAttendanceReport`
(`{ success, timestamp, student, attendance, summary }`; the route later
attaches a `metadata` object, which none of the claims touch). -/
structure Report where
  success : Bool
  timestamp : String
  student : StudentProfile
  attendance : List AttendanceRecord
  summary : Summary
deriving DecidableEq, Repr

/-- `fetchAttendanceReport`'s report construction from the scraped profile
and attendance rows (`now` stands for `new Date().toISOString()`). -/
def fetchReportOf (now : String) (profile : StudentProfile)
    (attendanceData : List AttendanceRecord) : Report where
  success := true
  timestamp := now
  student := profile
  attendance := attendanceData
  summary := upesSummary attendanceData

/-- Outcome of the awaited `scrapingService.fetchAttendanceReport(userId,
password)` call: either the scraped profile and rows, or a thrown error's
message. -/
inductive FetchOutcome where
  | ok (profile : StudentProfile) (attendanceData : List AttendanceRecord)
  | err (msg : String)
deriving DecidableEq, Repr

/-- The two handle fields of a `UPESScrapingService` instance
(`this.browser` / `this.page`; `none` models JS `null`). -/
structure SvcState where
  browser : Option ℕ
  page : Option ℕ
deriving DecidableEq, Repr

/-- Success/failure oracle for the effectful browser steps of one
`fetchAttendanceReport` run: whether `findChrome` finds a binary, whether
`puppeteer.launch` / `newPage` succeed, whether `login` and
`scrapeAttendanceData` complete without throwing, and whether the two
`close()` calls of `cleanup` resolve (`getStudentProfile` needs no flag — its
own catch swallows every failure and returns a default profile). -/
structure ScrapeEnv where
  chromeFound : Bool
  launchOk : Bool
  newPageOk : Bool
  loginOk : Bool
  scrapeOk : Bool
  pageCloseOk : Bool
  browserCloseOk : Bool
deriving DecidableEq, Repr

/-- `UPESScrapingService.initBrowser`: `findChrome` failure and any launch
failure are caught and rethrown as `'Browser initialization failed'`;
`this.browser` is assigned as soon as `launch` resolves, `this.page` once
`newPage` resolves. -/
def initBrowserStep (env : ScrapeEnv) (st : SvcState) : SvcState × Option String :=
  if env.chromeFound = false then (st, some "Browser initialization failed")
  else if env.launchOk = false then (st, some "Browser initialization failed")
  else
    let st1 : SvcState := { st with browser := some 0 }
    if env.newPageOk = false then (st1, some "Browser initialization failed")
    else ({ st1 with page := some 0 }, none)

/-- `UPESScrapingService.cleanup`: close the page then the browser, nulling
each field after its `close()` resolves; the whole body sits in one
`try`/`catch` that swallows errors — so a rejected `page.close()` leaves
`this.page` (and `this.browser`) set and skips the browser close. -/
def cleanupStep (env : ScrapeEnv) (st : SvcState) : SvcState :=
  match st.page with
  | some _ =>
    if env.pageCloseOk then
      let st1 : SvcState := { st with page := none }
      match st1.browser with
      | some _ => if env.browserCloseOk then { st1 with browser := none } else st1
      | none => st1
    else st
  | none =>
    match st.browser with
    | some _ => if env.browserCloseOk then { st with browser := none } else st
    | none => st

/-- Result of one `fetchAttendanceReport` run: the outcome the caller sees,
whether the `finally` block's `cleanup()` ran, and the service state after
the call. -/
structure RunResult where
  outcome : FetchOutcome
  cleanupInvoked : Bool
  finalState : SvcState
deriving DecidableEq, Repr

/-- `UPESScrapingService.fetchAttendanceReport(userId, password)`:
`initBrowser` → `login` → `scrapeAttendanceData` → `getStudentProfile` →
build the report; the catch rethrows, the `finally` always awaits
`cleanup()`.  `profile`/`rows` are the values the successful steps produce;
`loginErr`/`scrapeErr` the inner messages wrapped by the failing steps. -/
def fetchAttendanceReportRun (env : ScrapeEnv) (profile : StudentProfile)
    (rows : List AttendanceRecord) (loginErr scrapeErr : String) : RunResult :=
  let st0 : SvcState := ⟨none, none⟩
  let r1 := initBrowserStep env st0
  match r1.2 with
  | some m => ⟨.err m, true, cleanupStep env r1.1⟩
  | none =>
    if env.loginOk = false then
      ⟨.err ("Login failed: " ++ loginErr), true, cleanupStep env r1.1⟩
    else if env.scrapeOk = false then
      ⟨.err ("Failed to scrape attendance data: " ++ scrapeErr), true,
        cleanupStep env r1.1⟩
    else ⟨.ok profile rows, true, cleanupStep env r1.1⟩


/-- Error codes of the catch branch of `router.post('/fetch')`
(`src/backend/routes/attendance.js`), same first-match chain as
`fetchErrorStatus`. -/
def fetchErrorCode (msg : String) : String :=
  if strIncludes msg "Login failed" || strIncludes msg "credentials" then
    "INVALID_CREDENTIALS"
  else if strIncludes msg "RATE_LIMITED" ||
      strIncludes msg "too many login attempts" then "RATE_LIMITED"
  else if strIncludes msg "timeout" || strIncludes msg "Network" then "TIMEOUT_ERROR"
  else if strIncludes msg "Browser" || strIncludes msg "puppeteer" then
    "SERVICE_UNAVAILABLE"
  else if strIncludes msg "No attendance data found" then "NO_DATA_FOUND"
  else "FETCH_ERROR"

/-- JSON response of the `POST /api/attendance/fetch` route of
`src/backend/routes/attendance.js` (status code plus the response body's
`success`/`data`/`code` members; `message`/`error` strings omitted). -/
structure ApiResponse where
  status : ℕ
  success : Bool
  data : Option Report
  errorCode : Option String
deriving DecidableEq, Repr

/-- The `POST /api/attendance/fetch` handler of
`src/backend/routes/attendance.js` after the validation guards, as a function
of the awaited `fetchAttendanceReport` outcome.

The handler arms a 2-minute `setTimeout` whose callback `throw`s
(`fetchTimeout`, lines 67-69).  Under Node semantics an exception thrown
inside a timer callback runs on the event loop, outside the handler's
`try`/`catch`; it is never caught there, does not abort the awaited browser
work and cannot reach `res.status(...)` in this handler.  The embedding
records that by taking the timer state as an explicit `timerFired` argument
on which the translated response expression does not depend. -/
def routeFetchV1 (outcome : FetchOutcome) (now : String) (timerFired : Bool) :
    ApiResponse :=
  match outcome with
  | .ok profile att =>
      { status := 200, success := true
        data := some (fetchReportOf now profile att), errorCode := none }
  | .err m =>
      { status := fetchErrorStatus m, success := false
        data := none, errorCode := some (fetchErrorCode m) }

/-- The hard-coded base64 profile photo embedded in `generateFallbackData`. -/
def fallbackProfilePhoto : String :=
  "data:image/jpeg;base64,/9j/4AAQSkZJRgABAQEASABIAAD/2wBDAAMCAgMCAgMDAwMEA" ++
    "wMEBQgFBQQEBQoHBwYIDAoMDAsKCwsNDhIQDQ4RDgsLEBYQERMUFRUVDA8XGBYUGBIUFRT/2" ++
    "wBDAQMEBAUEBQkFBQkUDQsNFBQUFBQUFBQUFBQUFBQUFBQUFBQUFBQUFBQUFBQUFBQUFBQUF" ++
    "BQUFBQUFBQUFBQUFBT/wAARCAIsAa8DASIAAhEBAxEB/8QAHwAAAQUBAQEBAQEAAAAAAAAAA" ++
    "AECAwQFBgcICQoL/8QAtRAAAgEDAwIEAwUFBAQAAAF9AQIDAAQRBRIhMUEGE1FhByJxFDKBk" ++
    "aEII0KxwRVS0fAkM2JyggkKFhcYGRolJicoKSo0NTY3ODk6Q0RFRkdISUpTVFVWV1hZWmNkZ" ++
    "WZnaGlqc3R1dnd4eXqDhIWGh4iJipKTlJWWl5iZmqKjpKWmp6ipqrKztLW2t7i5usLDxMXGx" ++
    "8jJytLT1NXW19jZ2uHi4+Tl5ufo6erx8vP09fb3+Pn6/8QAHwEAAwEBAQEBAQEBAQAAAAAAA" ++
    "AECAwQFBgcICQoL/8QAtREAAgECBAQDBAcFBAQAAQJ3AAECAxEEBSExBhJBUQdhcRMiMoEIF" ++
    "EKRobHBCSMzUvAVYnLRChYkNOEl8RcYGRomJygpKjU2Nzg5OkNERUZHSElKU1RVVldYWVpjZ" ++
    "GVmZ2hpanN0dXZ3eHl6goOEhYaHiImKkpOUlZaXmJmaoqOkpaanqKmqsrO0tba3uLm6wsPEx" ++
    "cbHyMnK0tPU1dbX2Nna4uPk5ebn6Onq8vP09fb3+Pn6/9oADAMBAAIRAxEAPwCwsLL9B3NSL" ++
    "ZnjJ7ZNaUduuAMZ+tPWHkDFfhbmfV8rKK221hxUn2TCe9aCw7lHH0qTyOORg+lQ5lcpSaEcA" ++
    "Ac0LbhcrjPccc1fMZVRkc9hTDH1AH4UrsLFIw7sE8c9TTGhXvyelaDRBgOuB1zUZhVd3GR3r" ++
    "aJDM9oeoHG3pSCHbkgZzVxl3MQBgCjaB25rVJmbKyx/dyPrtq1HGN2MUu07cgc1PGjLjjNU4" ++
    "tgmTW8YGeMiraR8Zx6FcVnFFdZ0YxXbPHGe31aFZ94YP4/l61Bg0U5hDFssBjqBSrz0p74Pt" ++
    "xmmeqODcMYxTlfgd86U4YznrTaGBYdee9OXpnkdqaDnuKkWF2HSi9tQ9x8cXmMGzgL2J5r0D" ++
    "QL24ttNvLexna1vAhmFwm8tuVhgqDzuA5yO1eg+EPCVvfanYQ3KXEkE/wC/dYgw3Hrkj1r2f" ++
    "UvAXhrWtQ0s+I4vCskVnEDcy6TJpskwZeq7o8qo5wcnFdlGM3NI82dSHKzh/Dfwz8e/EzU7/" ++
    "wCzG7uM2yrPfKZjcWltGGJLKqFUBHUA4weoPNe4eKfDvjTxppWoR6vYarpupwKz6dqWnFI2X" ++
    "gBklEhKhQOCMZyAcZrqvht8MdI8EaHG1vo2g2wkjjkl1ewgRJ4WfOJC5BZjyeSOcZ74rqPEj" ++
    "22k+GNVsj4L1G7Wws3SZ9H05JJJUcZLKYs9MdxtYV6lCpHku0crqXl0OC+BXgfWZ/FFz8U9V" ++
    "Cw6tKzJpGnuwbzX2lFWQj+IBQM+tfTcGJbOKVlJR0DBR1xivOfAWoWcOhw2N1oOqXFhpsNvZ" ++
    "afbtBHKV2qAm5W5bav8fJr0Cz+zSW6fY4/LQcn5cnfXTgYNRUjzJvD4hpux//2Q=="

/-- Attendance row of the hard-coded fallback dataset (these rows carry
`subjectCode` and `faculty` alongside the usual record fields). -/
structure DetailedRecord where
  subject : String
  subjectCode : String
  total : ℕ
  attended : ℕ
  percentage : ℚ
  status : String
  faculty : String
deriving DecidableEq, Repr

/-- The seven hard-coded fallback subjects of `generateFallbackData`. -/
def fallbackAttendance : List DetailedRecord :=
  [⟨"Discrete Mathematical Structures", "CSBT301", 16, 14, 87.5, "Good",
      "Dr. Amit Kumar"⟩,
    ⟨"Operating Systems", "CSBT302", 19, 17, 89.47, "Good", "Prof. Priya Singh"⟩,
    ⟨"Fundamentals of Clinical Research", "HSBT206", 12, 12, 100, "Perfect",
      "Dr. Rajesh Sharma"⟩,
    ⟨"Elements of AIML", "CSBT305", 19, 19, 100, "Perfect", "Dr. Neha Davis"⟩,
    ⟨"Database Management Systems", "CSBT303", 23, 21, 91.3, "Excellent",
      "Prof. Anil Williams"⟩,
    ⟨"Design and Analysis of Algorithms", "CSBT304", 24, 24, 100, "Perfect",
      "Dr. Sunita Brown"⟩,
    ⟨"Biomedical Diagnostics", "HSBT208", 6, 5, 83.33, "Good", "Dr. Vivek Patel"⟩]

/-- The hard-coded `overallAttendance` object of `generateFallbackData`. -/
def fallbackOverall : OverallStats :=
  ⟨119, 112, 94.12, "Excellent", 7, 7, 0, 0,
    ["Excellent attendance! All subjects above minimum requirement.",
      "Continue maintaining regular attendance.",
      "You're on track for academic success!"]⟩

/-- Everything before the first `'@'` of an email (JS `email.split('@')[0]`,
the whole string when there is no `'@'`). -/
def emailLocalPart (e : String) : String :=
  String.mk (e.toList.takeWhile (fun c => c ≠ '@'))

/-- JS `s.charAt(0).toUpperCase() + s.slice(1).replace(/[0-9]/g, '')`:
upper-case the first character and strip digits from the rest. -/
def jsCapStripDigits (s : String) : String :=
  match s.toList with
  | [] => ""
  | c :: rest => String.mk (c.toUpper :: rest.filter (fun d => !d.isDigit))

/-- The student name / id derivation of `generateFallbackData`. -/
def fallbackStudentNameId (userEmail : String) : String × String :=
  if userEmail = "sudhanshu@student.com" ∨ strIncludes userEmail "sudhanshu" = true then
    ("Sudhanshu Ranjan", "590018435")
  else if userEmail = "demo@student.com" then ("Demo Student", "500000001")
  else (jsCapStripDigits (emailLocalPart userEmail), "590018435")

/-- `metadata` of the fallback dataset (the two wall-clock timestamp fields
`requestTime`/`lastUpdated` are not modelled). -/
structure FallbackMetadata where
  requestedBy : String
  source : String
  version : String
  note : String
deriving DecidableEq, Repr

/-- The fallback dataset object (`{ success, student, attendance,
overallAttendance, metadata }` — note: no `summary` member). -/
structure FallbackData where
  success : Bool
  student : StudentProfile
  attendance : List DetailedRecord
  overallAttendance : OverallStats
  metadata : FallbackMetadata
deriving DecidableEq, Repr

/-- `generateFallbackData(userId, userEmail)` from the version-3.0 attendance
route file: fabricated demo data returned when real scraping fails. -/
def generateFallbackData (userId userEmail : String) : FallbackData :=
  let ni := fallbackStudentNameId userEmail
  { success := true
    student :=
      { name := ni.1, studentId := ni.2, course := "B.Tech CSE"
        semester := "Semester 3", status := "ACTIVE"
        profilePhoto := some fallbackProfilePhoto }
    attendance := fallbackAttendance
    overallAttendance := fallbackOverall
    metadata :=
      { requestedBy := userId
        source := "Fallback Demo Data - UPES Portal Structure"
        version := "3.1"
        note := "Fallback data shown due to portal connectivity issues" } }

/-- The human error text of the version-3.0 route's catch branch (computed,
then carried into the fallback response as `originalError`). -/
def fetchErrorMessageV3 (msg : String) : String :=
  if strIncludes msg "Login failed" || strIncludes msg "credentials" then
    "Invalid UPES login credentials. Please check your Student ID and password."
  else if strIncludes msg "RATE_LIMITED" ||
      strIncludes msg "too many login attempts" then
    "Too many login attempts on UPES portal. Please wait 15-30 minutes before trying again."
  else if strIncludes msg "timeout" || strIncludes msg "Network" then
    "Request timeout while connecting to UPES Portal. Please try again later."
  else if strIncludes msg "Browser" || strIncludes msg "puppeteer" then
    "Scraping service temporarily unavailable. Please try again later."
  else if strIncludes msg "No attendance data found" then
    "No attendance data found on UPES Portal. Please check if data is available."
  else "Failed to fetch attendance data from UPES Portal"

/-- Body data of a version-3.0 route response: a real report on success, the
fabricated fallback dataset on failure. -/
inductive V3Data where
  | report (r : Report)
  | fallback (f : FallbackData)
deriving DecidableEq, Repr

/-- Response of the version-3.0 `POST /api/attendance/fetch` route. -/
structure ApiResponseV3 where
  status : ℕ
  success : Bool
  data : V3Data
  warning : Option String
  originalError : Option String
deriving DecidableEq, Repr

/-- The version-3.0 `POST /api/attendance/fetch` handler after its validation
guards, as a function of the awaited `fetchAttendanceReport` outcome.  Its
catch branch computes a status code and error text exactly as the other route
does, then discards the status code and instead answers HTTP 200 with
`success: true` and `generateFallbackData(userId, userEmail)`
("Fallback to demo data if real scraping fails").  `timerFired` is the same
Node-timer modelling as in `routeFetchV1`. -/
def routeFetchV3 (userId userEmail : String) (outcome : FetchOutcome)
    (now : String) (timerFired : Bool) : ApiResponseV3 :=
  match outcome with
  | .ok profile att =>
      { status := 200, success := true
        data := .report (fetchReportOf now profile att)
        warning := none, originalError := none }
  | .err m =>
      { status := 200, success := true
        data := .fallback (generateFallbackData userId userEmail)
        warning := some "Real UPES data unavailable, showing demo data"
        originalError := some (fetchErrorMessageV3 m) }

end AttendEase

namespace AttendEase

/-- C1: the three percentage → status classifiers all induce the same
safe/warning/critical bucketing, determined by the 75/65 thresholds. -/
theorem status_classification_consistent (p : ℚ) :
    statusBucket (getAttendanceStatus p) = some (classifyBucket p) ∧
    statusBucket (upesRowStatus p) = some (classifyBucket p) ∧
    statusBucket (dynamicRowStatus p) = some (classifyBucket p) := by
  unfold statusBucket getAttendanceStatus upesRowStatus dynamicRowStatus classifyBucket
  refine ⟨?_, ?_, ?_⟩ <;> split_ifs <;> simp_all <;> linarith

/-- Three mutually exclusive, jointly exhaustive boolean predicates split a
list's length. -/
theorem length_filter_three_partition (l : List AttendanceRecord)
    (p q r : AttendanceRecord → Bool)
    (h : ∀ x ∈ l,
      (p x = true ∧ q x = false ∧ r x = false) ∨
      (p x = false ∧ q x = true ∧ r x = false) ∨
      (p x = false ∧ q x = false ∧ r x = true)) :
    (l.filter p).length + (l.filter q).length + (l.filter r).length = l.length := by
  induction l with
  | nil => simp
  | cons a t ih =>
    have ha := h a (List.mem_cons_self a t)
    have ht := ih fun x hx => h x (List.mem_cons_of_mem a hx)
    rcases ha with ⟨h1, h2, h3⟩ | ⟨h1, h2, h3⟩ | ⟨h1, h2, h3⟩ <;>
      simp [List.filter_cons, h1, h2, h3] <;> omega

/-- The 75/65 percentage filters split every attendance list. -/
theorem percentage_filter_partition (l : List AttendanceRecord) :
    (l.filter fun s => decide (75 ≤ s.percentage)).length +
      (l.filter fun s => decide (65 ≤ s.percentage ∧ s.percentage < 75)).length +
      (l.filter fun s => decide (s.percentage < 65)).length = l.length := by
  apply length_filter_three_partition
  intro x _
  rcases le_or_lt 75 x.percentage with h75 | h75
  · refine Or.inl ⟨by simpa using h75, ?_, ?_⟩
    · simp only [decide_eq_false_iff_not]; rintro ⟨-, hlt⟩; linarith
    · simp only [decide_eq_false_iff_not]; intro hlt; linarith
  · rcases le_or_lt 65 x.percentage with h65 | h65
    · refine Or.inr (Or.inl ⟨?_, ?_, ?_⟩)
      · simp only [decide_eq_false_iff_not]; intro h; linarith
      · simp only [decide_eq_true_eq]; exact ⟨h65, h75⟩
      · simp only [decide_eq_false_iff_not]; intro h; linarith
    · refine Or.inr (Or.inr ⟨?_, ?_, ?_⟩)
      · simp only [decide_eq_false_iff_not]; intro h; linarith
      · simp only [decide_eq_false_iff_not]; rintro ⟨h, -⟩; linarith
      · simp only [decide_eq_true_eq]; exact h65

/-- C5: the two scraping services summarise the same attendance list with
different overall-percentage logic — `UPESScrapingService.fetchAttendanceReport`
averages the per-subject percentages, while
`DynamicAttendanceScrapingService.calculateOverallAttendance` divides total
attended by total held.  On the list below they give 50 and 90. -/
theorem overall_percentage_inconsistent :
    ∃ l : List AttendanceRecord,
      (upesSummary l).overallPercentage ≠
        (calculateOverallAttendance l).overallPercentage :=
  ⟨[⟨"Subject A", 0, 10, 0, "Critical"⟩, ⟨"Subject B", 90, 90, 100, "Good"⟩],
    by norm_num [upesSummary, calculateOverallAttendance, toFixed2]⟩

/-- C10 counterexample: `UPESScrapingService.fetchAttendanceReport`'s summary
does not partition an arbitrary attendance list — a record whose `status`
field disagrees with its percentage (status `'Good'`, percentage 50) is
counted both safe (by status) and critical (by percentage), so the three
bucket counts sum to 2 on a one-record list. -/
theorem upes_summary_not_partition :
    let l : List AttendanceRecord := [⟨"Subject X", 1, 2, 50, "Good"⟩]
    (upesSummary l).safeSubjects + (upesSummary l).warningSubjects +
        (upesSummary l).criticalSubjects ≠ (upesSummary l).totalSubjects := by
  decide

/-- C10 (amended): `DynamicAttendanceScrapingService.calculateOverallAttendance`
partitions every attendance list (its filters test only the percentage);
`UPESScrapingService.fetchAttendanceReport`'s summary partitions every list
whose records carry the status its own row extractor derives from the
percentage (as all lists it is actually applied to do). -/
theorem summary_partition (l : List AttendanceRecord) :
    ((calculateOverallAttendance l).safeSubjects +
        (calculateOverallAttendance l).warningSubjects +
        (calculateOverallAttendance l).criticalSubjects =
      (calculateOverallAttendance l).totalSubjects ∧
      (calculateOverallAttendance l).totalSubjects = l.length) ∧
    ((∀ x ∈ l, x.status = upesRowStatus x.percentage) →
      (upesSummary l).safeSubjects + (upesSummary l).warningSubjects +
          (upesSummary l).criticalSubjects = (upesSummary l).totalSubjects ∧
      (upesSummary l).totalSubjects = l.length) := by
  constructor
  · by_cases h0 : l.length = 0
    · simp [calculateOverallAttendance, h0]
    · simp only [calculateOverallAttendance, h0, if_false]
      exact ⟨percentage_filter_partition l, trivial⟩
  · intro hcons
    have hsafe : l.filter (fun a => decide (a.status = "Good" ∨ 75 ≤ a.percentage)) =
        l.filter (fun s => decide (75 ≤ s.percentage)) := by
      apply List.filter_congr
      intro x hx
      have hs := hcons x hx
      unfold upesRowStatus at hs
      rcases le_or_lt 75 x.percentage with h75 | h75
      · rw [if_pos h75] at hs; simp [hs, h75]
      · rw [if_neg (not_le.mpr h75)] at hs
        rcases le_or_lt 65 x.percentage with h65 | h65
        · rw [if_pos h65] at hs; simp [hs]
        · rw [if_neg (not_le.mpr h65)] at hs; simp [hs]
    have hwarn : l.filter
        (fun a => decide (a.status = "Warning" ∨ (65 ≤ a.percentage ∧ a.percentage < 75))) =
        l.filter (fun s => decide (65 ≤ s.percentage ∧ s.percentage < 75)) := by
      apply List.filter_congr
      intro x hx
      have hs := hcons x hx
      unfold upesRowStatus at hs
      rcases le_or_lt 75 x.percentage with h75 | h75
      · rw [if_pos h75] at hs
        simp only [hs, decide_eq_decide]
        constructor
        · rintro (h | h)
          · exact absurd h (by decide)
          · exact h
        · exact Or.inr
      · rw [if_neg (not_le.mpr h75)] at hs
        rcases le_or_lt 65 x.percentage with h65 | h65
        · rw [if_pos h65] at hs
          simp only [hs, decide_eq_decide]
          constructor
          · intro _; exact ⟨h65, h75⟩
          · exact Or.inr
        · rw [if_neg (not_le.mpr h65)] at hs; simp [hs]
    have hcrit : l.filter (fun a => decide (a.status = "Critical" ∨ a.percentage < 65)) =
        l.filter (fun s => decide (s.percentage < 65)) := by
      apply List.filter_congr
      intro x hx
      have hs := hcons x hx
      unfold upesRowStatus at hs
      rcases le_or_lt 75 x.percentage with h75 | h75
      · rw [if_pos h75] at hs; simp [hs]
      · rw [if_neg (not_le.mpr h75)] at hs
        rcases le_or_lt 65 x.percentage with h65 | h65
        · rw [if_pos h65] at hs; simp [hs]
        · rw [if_neg (not_le.mpr h65)] at hs
          simp only [hs, decide_eq_decide]
          constructor
          · intro _; exact h65
          · exact Or.inr
    refine ⟨?_, rfl⟩
    show (l.filter _).length + (l.filter _).length + (l.filter _).length = l.length
    rw [hsafe, hwarn, hcrit]
    exact percentage_filter_partition l

/-- Witness for `summary_partition` at a concrete status-consistent list. -/
theorem summary_partition_witness :
    let l : List AttendanceRecord :=
      [⟨"Subject M", 3, 4, 75, "Good"⟩, ⟨"Subject N", 1, 2, 50, "Critical"⟩]
    (upesSummary l).safeSubjects + (upesSummary l).warningSubjects +
        (upesSummary l).criticalSubjects = (upesSummary l).totalSubjects ∧
      (upesSummary l).totalSubjects = 2 :=
  (summary_partition
    [⟨"Subject M", 3, 4, 75, "Good"⟩, ⟨"Subject N", 1, 2, 50, "Critical"⟩]).2
    (by decide)

/-- C3 counterexample: the per-keyword reading of the status mapping is false,
because the chain is first-match.  `UPESScrapingService.login` rethrows every
failure wrapped as `` `Login failed: ${error.message}` ``, so a portal
rate-limit error reaches the route as a message containing both
`'Login failed'` and `'RATE_LIMITED'` — the route answers 401, not the 429
the `'RATE_LIMITED'` rule promises. -/
theorem fetch_error_status_rate_limited_counterexample :
    strIncludes "Login failed: RATE_LIMITED: too many login attempts"
        "RATE_LIMITED" = true ∧
      fetchErrorStatus "Login failed: RATE_LIMITED: too many login attempts" ≠ 429 ∧
      fetchErrorStatus "Login failed: RATE_LIMITED: too many login attempts" = 401 := by
  decide

/-- C3 (amended): the keyword → status rules hold in first-match order — each
rule applies only when no earlier rule's keywords occur in the message. -/
theorem fetch_error_status_first_match (msg : String) :
    ((strIncludes msg "Login failed" = true ∨ strIncludes msg "credentials" = true) →
      fetchErrorStatus msg = 401) ∧
    (strIncludes msg "Login failed" = false → strIncludes msg "credentials" = false →
      (strIncludes msg "RATE_LIMITED" = true ∨
        strIncludes msg "too many login attempts" = true) →
      fetchErrorStatus msg = 429) ∧
    (strIncludes msg "Login failed" = false → strIncludes msg "credentials" = false →
      strIncludes msg "RATE_LIMITED" = false →
      strIncludes msg "too many login attempts" = false →
      (strIncludes msg "timeout" = true ∨ strIncludes msg "Network" = true) →
      fetchErrorStatus msg = 504) ∧
    (strIncludes msg "Login failed" = false → strIncludes msg "credentials" = false →
      strIncludes msg "RATE_LIMITED" = false →
      strIncludes msg "too many login attempts" = false →
      strIncludes msg "timeout" = false → strIncludes msg "Network" = false →
      (strIncludes msg "Browser" = true ∨ strIncludes msg "puppeteer" = true) →
      fetchErrorStatus msg = 503) := by
  refine ⟨?_, ?_, ?_, ?_⟩ <;> intros <;>
    (try rename_i hor) <;> unfold fetchErrorStatus <;>
    rcases hor with h | h <;> simp [h, *]

/-- Witness for `fetch_error_status_first_match` on concrete messages from the
scraping service. -/
theorem fetch_error_status_first_match_witness :
    fetchErrorStatus "Login failed: Still on login page" = 401 ∧
      fetchErrorStatus "RATE_LIMITED: too many login attempts" = 429 ∧
      fetchErrorStatus "Navigation timeout exceeded" = 504 ∧
      fetchErrorStatus "Browser initialization failed" = 503 :=
  ⟨(fetch_error_status_first_match _).1 (Or.inl (by decide)),
    ((fetch_error_status_first_match _).2.1 (by decide) (by decide)
      (Or.inl (by decide))),
    ((fetch_error_status_first_match _).2.2.1 (by decide) (by decide) (by decide)
      (by decide) (Or.inl (by decide))),
    ((fetch_error_status_first_match _).2.2.2 (by decide) (by decide) (by decide)
      (by decide) (by decide) (by decide) (Or.inl (by decide)))⟩

/-- C2: whenever the awaited scraping workflow of the version-3.0
`POST /api/attendance/fetch` route throws — for any reason, so any error
message — the handler answers HTTP 200 with `success: true` and the
fabricated fallback dataset `generateFallbackData(userId, userEmail)`
instead of an error response. -/
theorem fetch_failure_returns_fallback (userId userEmail m now : String)
    (timerFired : Bool) :
    (routeFetchV3 userId userEmail (.err m) now timerFired).status = 200 ∧
      (routeFetchV3 userId userEmail (.err m) now timerFired).success = true ∧
      (routeFetchV3 userId userEmail (.err m) now timerFired).data =
        V3Data.fallback (generateFallbackData userId userEmail) :=
  ⟨rfl, rfl, rfl⟩

/-- C4: every HTTP-200 response of the `POST /api/attendance/fetch` route of
`src/backend/routes/attendance.js` carries `success: true` and a data object
of report shape — a student object, an attendance array and a summary object
(the summary being `upesSummary` of that attendance array); the error branch
never yields 200. -/
theorem fetch_200_response_shape (o : FetchOutcome) (now : String)
    (timerFired : Bool)
    (h200 : (routeFetchV1 o now timerFired).status = 200) :
    (routeFetchV1 o now timerFired).success = true ∧
      ∃ profile att, (routeFetchV1 o now timerFired).data =
        some { success := true, timestamp := now, student := profile
               attendance := att, summary := upesSummary att } := by
  cases o with
  | ok profile att =>
    exact ⟨rfl, profile, att, rfl⟩
  | err m =>
    exfalso
    simp only [routeFetchV1] at h200
    unfold fetchErrorStatus at h200
    split_ifs at h200 <;> omega

/-- Witness for `fetch_200_response_shape` at the scraper's hard-coded default
profile and an empty attendance list. -/
theorem fetch_200_response_shape_witness :
    let p : StudentProfile :=
      ⟨"Student Name", "590018413", "B.Tech CSE", "Semester 3", "Active", none⟩
    (routeFetchV1 (.ok p []) "2025-01-25T00:00:00Z" false).success = true ∧
      ∃ profile att,
        (routeFetchV1 (.ok p []) "2025-01-25T00:00:00Z" false).data =
          some { success := true, timestamp := "2025-01-25T00:00:00Z"
                 student := profile, attendance := att
                 summary := upesSummary att } :=
  fetch_200_response_shape
    (.ok ⟨"Student Name", "590018413", "B.Tech CSE", "Semester 3", "Active", none⟩ [])
    "2025-01-25T00:00:00Z" false (by decide)

/-- C7: the manual 2-minute timer of `router.post('/fetch')` never determines
the response — the response is a function of the awaited
`fetchAttendanceReport` outcome alone, and a 504 arises only from a thrown
error whose message matches the timeout/Network keywords, never from the
timer callback's own throw (which Node runs outside the handler's
`try`/`catch`). -/
theorem fetch_timer_never_determines_response (o : FetchOutcome) (now : String)
    (t t' : Bool) :
    routeFetchV1 o now t = routeFetchV1 o now t' ∧
      ((routeFetchV1 o now t).status = 504 →
        ∃ m, o = FetchOutcome.err m ∧
          (strIncludes m "timeout" = true ∨ strIncludes m "Network" = true)) := by
  refine ⟨rfl, ?_⟩
  cases o with
  | ok profile att => intro h; simp [routeFetchV1] at h
  | err m =>
    intro h
    refine ⟨m, rfl, ?_⟩
    simp only [routeFetchV1] at h
    unfold fetchErrorStatus at h
    split_ifs at h with h1 h2 h3
    · exact absurd h (by decide)
    · exact absurd h (by decide)
    · simpa using h3
    all_goals exact absurd h (by decide)

/-- Witness for `fetch_timer_never_determines_response`, with the very message
the manual timer would throw. -/
theorem fetch_timer_never_determines_response_witness :
    routeFetchV1 (.err "Attendance fetch timeout - operation took too long")
        "2025-01-25T00:00:00Z" true =
      routeFetchV1 (.err "Attendance fetch timeout - operation took too long")
        "2025-01-25T00:00:00Z" false ∧
      ∃ m, FetchOutcome.err "Attendance fetch timeout - operation took too long" =
          FetchOutcome.err m ∧
        (strIncludes m "timeout" = true ∨ strIncludes m "Network" = true) :=
  ⟨(fetch_timer_never_determines_response
      (.err "Attendance fetch timeout - operation took too long")
      "2025-01-25T00:00:00Z" true false).1,
    (fetch_timer_never_determines_response
      (.err "Attendance fetch timeout - operation took too long")
      "2025-01-25T00:00:00Z" true false).2 (by decide)⟩

/-- C6 counterexample: `cleanup` *is* invoked in the `finally` block, but it
does not guarantee `browser = null ∧ page = null` — its own `try`/`catch`
swallows a rejected `page.close()`, leaving both handles set after the call
completes. -/
theorem fetch_report_cleanup_counterexample :
    let env : ScrapeEnv := ⟨true, true, true, true, true, false, true⟩
    let p : StudentProfile :=
      ⟨"Student Name", "590018413", "B.Tech CSE", "Semester 3", "Active", none⟩
    (fetchAttendanceReportRun env p [] "x" "x").cleanupInvoked = true ∧
      (fetchAttendanceReportRun env p [] "x" "x").finalState.page ≠ none ∧
      (fetchAttendanceReportRun env p [] "x" "x").finalState.browser ≠ none := by
  decide

/-- C6 (amended): on every path of `fetchAttendanceReport` — init failure,
login failure, scrape failure or success — the `finally` block invokes
`cleanup`, and provided the two `close()` calls do not themselves throw, the
service ends with `browser = null` and `page = null`. -/
theorem fetch_report_cleanup (env : ScrapeEnv) (profile : StudentProfile)
    (rows : List AttendanceRecord) (loginErr scrapeErr : String)
    (hp : env.pageCloseOk = true) (hb : env.browserCloseOk = true) :
    (fetchAttendanceReportRun env profile rows loginErr scrapeErr).cleanupInvoked
        = true ∧
      (fetchAttendanceReportRun env profile rows loginErr
        scrapeErr).finalState.browser = none ∧
      (fetchAttendanceReportRun env profile rows loginErr
        scrapeErr).finalState.page = none := by
  rcases env with ⟨cf, lau, np, lo, sc, pc, bc⟩
  simp only at hp hb
  subst hp hb
  cases cf <;> cases lau <;> cases np <;> cases lo <;> cases sc <;>
    simp [fetchAttendanceReportRun, initBrowserStep, cleanupStep]

/-- Witness for `fetch_report_cleanup` on an all-success run. -/
theorem fetch_report_cleanup_witness :
    let env : ScrapeEnv := ⟨true, true, true, true, true, true, true⟩
    let p : StudentProfile :=
      ⟨"Student Name", "590018413", "B.Tech CSE", "Semester 3", "Active", none⟩
    (fetchAttendanceReportRun env p [] "x" "x").cleanupInvoked = true ∧
      (fetchAttendanceReportRun env p [] "x" "x").finalState.browser = none ∧
      (fetchAttendanceReportRun env p [] "x" "x").finalState.page = none :=
  fetch_report_cleanup ⟨true, true, true, true, true, true, true⟩
    ⟨"Student Name", "590018413", "B.Tech CSE", "Semester 3", "Active", none⟩
    [] "x" "x" rfl rfl

/-- Characters admitted by the login regex are not whitespace. -/
theorem validUserIdChar_not_space (c : Char) (h : validUserIdChar c = true) :
    jsIsSpace c = false := by
  cases hs : jsIsSpace c with
  | false => rfl
  | true =>
    exfalso
    simp only [jsIsSpace, Bool.or_eq_true, beq_iff_eq] at hs
    rcases hs with ((rfl | rfl) | rfl) | rfl <;> exact absurd h (by decide)

/-- `dropWhile` is the identity on lists none of whose elements satisfy the
predicate. -/
theorem dropWhile_eq_self_of_none (p : Char → Bool) (l : List Char)
    (h : ∀ c ∈ l, p c = false) : l.dropWhile p = l := by
  cases l with
  | nil => rfl
  | cons a t => simp [List.dropWhile_cons, h a (List.mem_cons_self a t)]

/-- `jsTrim` is the identity on whitespace-free strings. -/
theorem jsTrim_eq_self (s : String) (h : ∀ c ∈ s.toList, jsIsSpace c = false) :
    jsTrim s = s := by
  obtain ⟨l⟩ := s
  have h' : ∀ c ∈ l, jsIsSpace c = false := fun c hc => h c hc
  have h1 : l.dropWhile jsIsSpace = l := dropWhile_eq_self_of_none _ _ h'
  have h2 : l.reverse.dropWhile jsIsSpace = l.reverse :=
    dropWhile_eq_self_of_none _ _ (fun c hc => h' c (List.mem_reverse.mp hc))
  show String.mk (((l.dropWhile jsIsSpace).reverse.dropWhile jsIsSpace).reverse) =
    String.mk l
  rw [h1, h2, List.reverse_reverse]

/-- C8 counterexample: a whitespace-only password is non-empty, and
`"student1"` satisfies the claimed userId conditions, yet the login route
answers 400 (`MISSING_CREDENTIALS`), not 200 — the handler re-trims the
password and rejects the trimmed-empty value as falsy. -/
theorem login_whitespace_password_counterexample :
    "student1".toList.all validUserIdChar = true ∧
      1 ≤ "student1".length ∧ "student1".length ≤ 50 ∧
      " " ≠ "" ∧
      (loginRoute "student1" " ").status = 400 ∧
      (loginRoute "student1" " ").status ≠ 200 ∧
      (loginRoute "student1" " ").success = false := by
  refine ⟨by decide, by decide, by decide, by decide, ?_, ?_, ?_⟩ <;> decide

/-- C8 (amended): for every userId of 1-50 characters matching
`/^[a-zA-Z0-9._@-]+$/` and every password that is non-empty *after trimming*,
`POST /api/auth/login` answers 200 with `success: true` and a token whose
payload `userId` is the trimmed (here: unchanged), lowercased input userId —
one fixed response value that does not depend on what the password is (no
portal credential check happens at login). -/
theorem login_route_issues_token (u p : String)
    (hu0 : u ≠ "") (huc : u.toList.all validUserIdChar = true)
    (hl1 : 1 ≤ u.length) (hl50 : u.length ≤ 50)
    (hp0 : p ≠ "") (hpt : jsTrim p ≠ "") :
    loginRoute u p = ⟨200, true, some (jsToLower u)⟩ := by
  have hns : ∀ c ∈ u.toList, jsIsSpace c = false := fun c hc =>
    validUserIdChar_not_space c (List.all_eq_true.mp huc c hc)
  have htrim : jsTrim u = u := jsTrim_eq_self u hns
  have hlow : jsToLower u ≠ "" := by
    obtain ⟨l⟩ := u
    cases l with
    | nil => exact absurd rfl hu0
    | cons a t => simp [jsToLower, String.toList, String.ext_iff]
  have hplen : 1 ≤ p.length := by
    obtain ⟨pl⟩ := p
    cases pl with
    | nil => exact absurd rfl hp0
    | cons a t => simp [String.length]
  have hval : validateLoginInput u p = true := by
    unfold validateLoginInput
    simp only [htrim, Bool.and_eq_true, Bool.not_eq_true', beq_eq_false_iff_ne, ne_eq,
      decide_eq_true_eq]
    exact ⟨⟨⟨⟨hu0, hl1, hl50⟩, hu0, huc⟩, hp0⟩, hplen⟩
  have hcond : ¬ (validateLoginInput u p = false) := by simp [hval]
  unfold loginRoute
  rw [if_neg hcond]
  simp only [htrim]
  rw [if_neg (by simp [hlow, hpt])]

/-- Witness for `login_route_issues_token` on a concrete login. -/
theorem login_route_issues_token_witness :
    loginRoute "Student.01@upes" "hunter2" = ⟨200, true, some "student.01@upes"⟩ := by
  have h := login_route_issues_token "Student.01@upes" "hunter2"
    (by decide) (by decide) (by decide) (by decide) (by decide) (by decide)
  rw [h]
  decide

/-- C9: `calculateClassesNeeded(currentAttended, currentTotal,
targetPercentage)` returns the least non-negative integer `n` with
`100 * (currentAttended + n) ≥ targetPercentage * (currentTotal + n)`
whenever `currentAttended ≤ currentTotal` and `0 < targetPercentage < 100`
(in particular 0 when `currentTotal = 0` or the target is already met). -/
theorem calculateClassesNeeded_least (a t : ℕ) (p : ℚ)
    (hat : a ≤ t) (hp0 : 0 < p) (hp1 : p < 100) :
    0 ≤ calculateClassesNeeded a t p ∧
      p * ((t : ℚ) + (calculateClassesNeeded a t p : ℚ)) ≤
        100 * ((a : ℚ) + (calculateClassesNeeded a t p : ℚ)) ∧
      ∀ m : ℤ, 0 ≤ m →
        p * ((t : ℚ) + (m : ℚ)) ≤ 100 * ((a : ℚ) + (m : ℚ)) →
        calculateClassesNeeded a t p ≤ m := by
  unfold calculateClassesNeeded
  by_cases ht : t = 0
  · subst ht
    have ha : a = 0 := Nat.le_zero.mp hat
    subst ha
    simp only [if_pos rfl]
    refine ⟨le_refl 0, ?_, fun m hm _ => by exact_mod_cast hm⟩
    push_cast
    nlinarith
  · simp only [if_neg ht]
    have htpos : (0 : ℚ) < (t : ℚ) := by
      exact_mod_cast Nat.pos_of_ne_zero ht
    by_cases hge : p ≤ (a : ℚ) / (t : ℚ) * 100
    · simp only [if_pos hge]
      refine ⟨le_refl 0, ?_, fun m hm _ => by exact_mod_cast hm⟩
      have h1 : p * (t : ℚ) ≤ (a : ℚ) / (t : ℚ) * 100 * (t : ℚ) :=
        mul_le_mul_of_nonneg_right hge htpos.le
      have h2 : (a : ℚ) / (t : ℚ) * 100 * (t : ℚ) = 100 * (a : ℚ) := by
        field_simp
        ring
      push_cast
      nlinarith [h1, h2]
    · simp only [if_neg hge]
      push_neg at hge
      have hd : (0 : ℚ) < 100 - p := by linarith
      have hnum : (0 : ℚ) < p * (t : ℚ) - (a : ℚ) * 100 := by
        have h1 : (a : ℚ) / (t : ℚ) * 100 * (t : ℚ) < p * (t : ℚ) :=
          mul_lt_mul_of_pos_right hge htpos
        have h2 : (a : ℚ) / (t : ℚ) * 100 * (t : ℚ) = (a : ℚ) * 100 := by
          field_simp
        linarith [h2 ▸ h1]
      have hrpos : (0 : ℚ) < (p * (t : ℚ) - (a : ℚ) * 100) / (100 - p) :=
        div_pos hnum hd
      have hceil : (0 : ℤ) < ⌈(p * (t : ℚ) - (a : ℚ) * 100) / (100 - p)⌉ :=
        Int.ceil_pos.mpr hrpos
      rw [max_eq_right hceil.le]
      refine ⟨hceil.le, ?_, ?_⟩
      · have hle : (p * (t : ℚ) - (a : ℚ) * 100) / (100 - p) ≤
            (⌈(p * (t : ℚ) - (a : ℚ) * 100) / (100 - p)⌉ : ℚ) := Int.le_ceil _
        have h2 : p * (t : ℚ) - (a : ℚ) * 100 ≤
            (⌈(p * (t : ℚ) - (a : ℚ) * 100) / (100 - p)⌉ : ℚ) * (100 - p) :=
          (div_le_iff₀ hd).mp hle
        nlinarith [h2]
      · intro m hm hsat
        apply Int.ceil_le.mpr
        apply (div_le_iff₀ hd).mpr
        nlinarith [hsat]

/-- Witness for `calculateClassesNeeded_least`: from 1 of 2 classes attended,
2 more consecutive attended classes are needed to reach 75%. -/
theorem calculateClassesNeeded_least_witness :
    0 ≤ calculateClassesNeeded 1 2 75 ∧
      (75 : ℚ) * (((2 : ℕ) : ℚ) + ((calculateClassesNeeded 1 2 75 : ℤ) : ℚ)) ≤
        100 * (((1 : ℕ) : ℚ) + ((calculateClassesNeeded 1 2 75 : ℤ) : ℚ)) :=
  ⟨(calculateClassesNeeded_least 1 2 75 (by norm_num) (by norm_num) (by norm_num)).1,
    (calculateClassesNeeded_least 1 2 75 (by norm_num) (by norm_num) (by norm_num)).2.1⟩

end AttendEase
